import Mathlib

/-
  Verification development for the mathpdf worker (src/worker.js, third
  revision in the file — the revision all claims cite).

  Shallow embedding conventions:
  * JavaScript numbers are modelled as rationals (ℚ); the engine only ever
    produces finite values in the scenarios the claims describe, and the
    magnitude check of the validator is modelled as the bound |v| < 1e7.
  * The PDFium engine collaborators (loadPage, getMediaBox, setMediaBox,
    setCropBox, rendering) are modelled as always succeeding; a page's
    rendered bitmap is abstracted as a function from pixel coordinates to
    the three colour channel bytes read by the scanner.
  * Mutation of the document is modelled by returning the updated page list.
-/

/-- A page box {left, bottom, right, top} in document units. -/
structure Box where
  L : ℚ
  B : ℚ
  R : ℚ
  T : ℚ
deriving DecidableEq

/-- Result of getTightContentBounds: a content box plus the isEmpty flag. -/
structure ContentBounds where
  L : ℚ
  B : ℚ
  R : ℚ
  T : ℚ
  isEmpty : Bool
deriving DecidableEq

/-- A document page as observed through the engine: its media box and crop
box.  getPageBox is modelled as returning the media box. -/
structure Page where
  mediaBox : Box
  cropBox : Box
deriving DecidableEq

def defaultPage : Page := ⟨⟨0, 0, 0, 0⟩, ⟨0, 0, 0, 0⟩⟩

/-- Margin side configuration: right, left or alternating. -/
inductive Side where
  | left
  | right
  | alternating
deriving DecidableEq

/-- config.tablet after sanitization (width, height, epsilon are numbers). -/
structure TabletConfig where
  width : ℚ
  height : ℚ
  epsilon : ℚ
deriving DecidableEq

/-- The worker configuration: optional tablet mode, marginSize and side. -/
structure Config where
  tablet : Option TabletConfig
  marginSize : ℚ
  side : Side
deriving DecidableEq

/-- Sanitization of config.tablet (worker.js lines 791-800): non-positive
target dimensions are replaced by 1000.  Non-finite values do not exist in
the ℚ model. -/
def sanitizeTablet (t : TabletConfig) : TabletConfig :=
  { width := if t.width ≤ 0 then 1000 else t.width
    height := if t.height ≤ 0 then 1000 else t.height
    epsilon := t.epsilon }

def sanitizeConfig (cfg : Config) : Config :=
  { cfg with tablet := cfg.tablet.map sanitizeTablet }

/-- Pixel threshold of the raster scanner (worker.js line 478). -/
def THRESHOLD : ℕ := 250

/-- A pixel is content when any of its three colour channels is darker than
the threshold (worker.js line 542). -/
def isContentPx (px : ℕ × ℕ × ℕ) : Bool :=
  px.1 < THRESHOLD || px.2.1 < THRESHOLD || px.2.2 < THRESHOLD

/-- Row scan used to find the top and bottom content rows: does row y hold
any content pixel (worker.js lines 538-547)? -/
def rowHasContent (isContent : ℕ → ℕ → Bool) (bmWidth y : ℕ) : Bool :=
  (List.range bmWidth).any (fun x => isContent x y)

/-- Left scan of one row (worker.js lines 569-575): the first content pixel
with x < minX, keeping minX when there is none. -/
def scanRowLeft (isContent : ℕ → ℕ → Bool) (y minX : ℕ) : ℕ :=
  match (List.range minX).find? (fun x => isContent x y) with
  | some v => v
  | none => minX

/-- Right scan of one row (worker.js lines 578-584): the first content pixel
scanning right-to-left while x > maxX, keeping maxX when there is none. -/
def scanRowRight (isContent : ℕ → ℕ → Bool) (bmWidth y : ℕ) (maxX : ℤ) : ℤ :=
  match (((List.range ((bmWidth - (maxX + 1)).toNat)).map
      (fun k => bmWidth - 1 - k)).find? (fun x => isContent x y)) with
  | some v => (v : ℤ)
  | none => maxX

/-- Phase A of the pixel scan (worker.js lines 538-547): the first row,
from the top, holding a content pixel. -/
def findTopRow (isContent : ℕ → ℕ → Bool) (bmWidth bmHeight : ℕ) : Option ℕ :=
  (List.range bmHeight).find? (fun y => rowHasContent isContent bmWidth y)

/-- Phase B (worker.js lines 551-562): the first content row scanning from
the bottom down to minY; the loop is guaranteed to stop at minY, modelled
by the getD fallback. -/
def findBottomRow (isContent : ℕ → ℕ → Bool) (bmWidth bmHeight minY : ℕ) : ℕ :=
  (((List.range (bmHeight - minY)).map (fun k => bmHeight - 1 - k)).find?
    (fun y => rowHasContent isContent bmWidth y)).getD minY

/-- Phase C (worker.js lines 565-585): fold the per-row left and right
scans over the content rows, starting from minX = bmWidth and maxX = −1. -/
def scanColumns (isContent : ℕ → ℕ → Bool) (bmWidth minY maxY : ℕ) : ℕ × ℤ :=
  ((List.range (maxY + 1 - minY)).map (fun k => k + minY)).foldl
    (fun (st : ℕ × ℤ) y => (scanRowLeft isContent y st.1, scanRowRight isContent bmWidth y st.2))
    (bmWidth, -1)

/-- getTightContentBounds (worker.js lines 476-611), with the rendered
bitmap abstracted as the channel function `render x y = (b, g, r)`.
The bitmap-creation failure path (engine failure) is not modelled. -/
def getTightContentBounds (render : ℕ → ℕ → ℕ × ℕ × ℕ)
    (origL origB origR origT maxBitmapDim : ℚ) : ContentBounds :=
  let normL := min origL origR
  let normR := max origL origR
  let normB := min origB origT
  let normT := max origB origT
  let normW := normR - normL
  let normH := normT - normB
  let maxDim := max normW normH
  let scale := if maxDim > 0 then maxBitmapDim / maxDim else 1
  let bmWidthZ : ℤ := ⌈normW * scale⌉
  let bmHeightZ : ℤ := ⌈normH * scale⌉
  if bmWidthZ ≤ 0 ∨ bmHeightZ ≤ 0 then
    ⟨origL, origB, origR, origT, true⟩
  else
    let bmWidth := bmWidthZ.toNat
    let bmHeight := bmHeightZ.toNat
    let isContent := fun x y => isContentPx (render x y)
    match findTopRow isContent bmWidth bmHeight with
    | none =>
      let midX := (origL + origR) / 2
      let midY := (origB + origT) / 2
      ⟨midX, midY, midX, midY, true⟩
    | some minY =>
      let maxY := findBottomRow isContent bmWidth bmHeight minY
      let scanned := scanColumns isContent bmWidth minY maxY
      let minX := scanned.1
      let maxX := scanned.2
      ⟨normL + (minX : ℚ) / scale,
       normT - ((maxY : ℚ) + 1) / scale,
       normL + (((maxX : ℚ)) + 1) / scale,
       normT - (minY : ℚ) / scale,
       false⟩

/-- Which side receives the margin (worker.js line 711): right, or
alternating with an even page index. -/
def applyRightSide : Side → ℕ → Bool
  | Side.right, _ => true
  | Side.alternating, i => i % 2 == 0
  | Side.left, _ => false

/-- The new page box computed by applyMarginsRaw (worker.js lines 646-732),
before validation.  overrideBounds and uniformDims mirror the optional
arguments of the source function. -/
def computeNewBox (cfg : Config) (pageIndex : ℕ) (box : Box)
    (overrideBounds : Option ContentBounds) (uniformDims : Option (ℚ × ℚ)) : Box :=
  match cfg.tablet with
  | some tab =>
    let origB := box.B
    let origT := box.T
    let L := match overrideBounds with | some ob => ob.L | none => box.L
    let R := match overrideBounds with | some ob => ob.R | none => box.R
    let B := match overrideBounds with | some ob => ob.B | none => box.B
    let T := match overrideBounds with | some ob => ob.T | none => box.T
    let eps := tab.epsilon
    let dims : ℚ × ℚ := match uniformDims with
      | some d => d
      | none =>
        let hp := T - B
        let nh := hp + eps * 2
        (nh * (tab.width / tab.height), nh)
    let newWidth := dims.1
    let newHeight := dims.2
    let contentCy := (T + B) / 2
    let origHeight := origT - origB
    let safeOrigHeight := if origHeight > 0 then origHeight else 1
    let relPos := (contentCy - origB) / safeOrigHeight
    let tentativeB := contentCy - relPos * newHeight
    let tentativeT := tentativeB + newHeight
    let minT := T + eps
    let maxB := B - eps
    let clamped : ℚ × ℚ :=
      if tentativeT < minT then
        let shift := minT - tentativeT
        (tentativeB + shift, tentativeT + shift)
      else if tentativeB > maxB then
        let shift := tentativeB - maxB
        (tentativeB - shift, tentativeT - shift)
      else (tentativeB, tentativeT)
    let newB := clamped.1
    let newT := clamped.2
    if applyRightSide cfg.side pageIndex then
      let newL := L - eps
      ⟨newL, newB, newL + newWidth, newT⟩
    else
      let newR := R + eps
      ⟨newR - newWidth, newB, newR, newT⟩
  | none =>
    let marginSize := cfg.marginSize
    if applyRightSide cfg.side pageIndex then
      ⟨box.L, box.B, box.R + marginSize, box.T⟩
    else
      ⟨box.L - marginSize, box.B, box.R, box.T⟩

/-- Coordinate validation (worker.js line 735): finite with magnitude below
1e7.  Finiteness is automatic in the ℚ model. -/
def isValidCoord (v : ℚ) : Bool := |v| < 10000000

def boxValid (b : Box) : Bool :=
  isValidCoord b.L && isValidCoord b.B && isValidCoord b.R && isValidCoord b.T

/-- applyMarginsRaw (worker.js lines 642-742): compute the new box, and
write both the media box and the crop box when all four coordinates are
valid, otherwise leave the page untouched. -/
def applyMarginsRaw (cfg : Config) (pageIndex : ℕ) (page : Page)
    (overrideBounds : Option ContentBounds) (uniformDims : Option (ℚ × ℚ)) : Page :=
  let nb := computeNewBox cfg pageIndex page.mediaBox overrideBounds uniformDims
  if boxValid nb then ⟨nb, nb⟩ else page

/-- Content heights (top − bottom) of the non-empty page records
(worker.js lines 856-858). -/
def nonEmptyContentHeights (pageBounds : List ContentBounds) : List ℚ :=
  (pageBounds.filter (fun b => !b.isEmpty)).map (fun b => b.T - b.B)

/-- typicalContentHeight (worker.js lines 860-868): sort the non-empty
content heights ascending and take the element at index ⌊n/2⌋, with the
fixed fallback 500 when there are none.  The JavaScript in-place numeric
sort is modelled by insertion sort (any ascending sort of ℚ values yields
the same list). -/
def typicalContentHeight (pageBounds : List ContentBounds) : ℚ :=
  let sorted := List.insertionSort (· ≤ ·) (nonEmptyContentHeights pageBounds)
  if 0 < sorted.length then sorted.getD (sorted.length / 2) 0 else 500

/-- The padding unit heuristic (worker.js lines 873-876): if the typical
content height looks like points (> 200) while the padding looks like
inches (0 < eps < 5), multiply the padding by 72. -/
def scaledEpsilon (typical eps : ℚ) : ℚ :=
  if typical > 200 ∧ eps > 0 ∧ eps < 5 then eps * 72 else eps

/-- basePageHeight (worker.js line 881). -/
def basePageHeight (typical eps : ℚ) : ℚ := typical + eps * 2

/-- basePageWidth (worker.js line 882). -/
def basePageWidth (typical eps aspect : ℚ) : ℚ := basePageHeight typical eps * aspect

/-- The per-page target dimensions of pass 2 (worker.js lines 888-906):
grow height and width past the baseline for outlier content, then apply
the aspect correction exactly as the source writes it. -/
def planDims (baseH baseW aspect eps : ℚ) (bounds : ContentBounds) : ℚ × ℚ :=
  let contentH := if bounds.isEmpty then 0 else bounds.T - bounds.B
  let contentW := if bounds.isEmpty then 0 else bounds.R - bounds.L
  let pageHeight := max baseH (contentH + eps * 2)
  let pageWidth := max baseW (contentW + eps * 2)
  let corrected := if pageWidth / pageHeight > aspect then pageWidth / aspect else pageHeight
  (pageWidth, corrected)

/-- Fallback bounds record used when a page cannot be inspected
(worker.js lines 846 and 851). -/
def emptyFallbackBounds : ContentBounds := ⟨0, 0, 0, 0, true⟩

/-- The tablet-mode statistics and second pass (worker.js lines 855-911):
compute the typical height, apply the unit heuristic, derive the baseline,
then recompose every page.  Note the composition step receives the original
config, whose tablet.epsilon is the unscaled value. -/
def tabletProcess (cfg : Config) (tab : TabletConfig)
    (pages : List Page) (pageBounds : List ContentBounds) : List Page :=
  let typical := typicalContentHeight pageBounds
  let eps := scaledEpsilon typical tab.epsilon
  let targetAspect := tab.width / tab.height
  let baseH := basePageHeight typical eps
  let baseW := basePageWidth typical eps targetAspect
  (List.range pages.length).map (fun i =>
    let bounds := pageBounds.getD i emptyFallbackBounds
    let dims := planDims baseH baseW targetAspect eps bounds
    applyMarginsRaw cfg i (pages.getD i defaultPage) (some bounds) (some dims))

/-- One input page: its engine-visible page state and its rendered bitmap
(as the channel function consumed by the scanner). -/
structure InputPage where
  page : Page
  render : ℕ → ℕ → ℕ × ℕ × ℕ

def MAX_BITMAP_DIM : ℚ := 1000

/-- Pass 1 of tablet mode (worker.js lines 839-853): detect every page's
content bounds. -/
def pass1 (ips : List InputPage) : List ContentBounds :=
  ips.map (fun ip =>
    getTightContentBounds ip.render ip.page.mediaBox.L ip.page.mediaBox.B
      ip.page.mediaBox.R ip.page.mediaBox.T MAX_BITMAP_DIM)

/-- The PROCESS_PDF handler after loading (worker.js lines 813-931): tablet
mode runs the two passes, otherwise the single fixed-margin pass runs. -/
def processDoc (cfg : Config) (ips : List InputPage) : List Page :=
  let pages := ips.map (fun ip => ip.page)
  match cfg.tablet with
  | some tab => tabletProcess cfg tab pages (pass1 ips)
  | none =>
    (List.range pages.length).map (fun i =>
      applyMarginsRaw cfg i (pages.getD i defaultPage) none none)

/-- Full processing of one message: sanitize the configuration, then
process the document. -/
def process (cfg : Config) (ips : List InputPage) : List Page :=
  processDoc (sanitizeConfig cfg) ips

/-- Modelled from the claim wording of C2: the target geometry written with
the formulas of the specification text (baseline, per-page maxima, aspect
correction as stated). -/
def specTargetGeometry (typical eps wT hT : ℚ) (bounds : ContentBounds) : ℚ × ℚ :=
  let baseHeight := typical + 2 * eps
  let baseWidth := baseHeight * (wT / hT)
  let contentHeight := if bounds.isEmpty then 0 else bounds.T - bounds.B
  let contentWidth := if bounds.isEmpty then 0 else bounds.R - bounds.L
  let height := max baseHeight (contentHeight + 2 * eps)
  let width := max baseWidth (contentWidth + 2 * eps)
  let corrected := if width / height > wT / hT then width / (wT / hT) else height
  (width, corrected)

/-- Modelled from the claim wording of C6: a variant of the second pass in
which the ×72-scaled padding is the value used everywhere, including the
margin composition step.  The actual code passes the original config to
applyMarginsRaw instead. -/
def tabletProcessClaimC6 (cfg : Config) (tab : TabletConfig)
    (pages : List Page) (pageBounds : List ContentBounds) : List Page :=
  let typical := typicalContentHeight pageBounds
  let eps := scaledEpsilon typical tab.epsilon
  let targetAspect := tab.width / tab.height
  let baseH := basePageHeight typical eps
  let baseW := basePageWidth typical eps targetAspect
  let scaledCfg : Config := { cfg with tablet := some { tab with epsilon := eps } }
  (List.range pages.length).map (fun i =>
    let bounds := pageBounds.getD i emptyFallbackBounds
    let dims := planDims baseH baseW targetAspect eps bounds
    applyMarginsRaw scaledCfg i (pages.getD i defaultPage) (some bounds) (some dims))

/-- A rendered bitmap that is entirely black: every pixel is content. -/
def blackRender : ℕ → ℕ → ℕ × ℕ × ℕ := fun _ _ => (0, 0, 0)

/-- Target 1000×1000 with zero padding, as in the repository tests. -/
def tabSquare : TabletConfig := ⟨1000, 1000, 0⟩

def cfgSquare : Config := ⟨some tabSquare, 0, Side.right⟩

/-- Three pages shaped like the specification example: content heights
780, 2980, 780 (a 600×3000 long capture between two 600×800 pages). -/
def pagesExample : List Page :=
  [⟨⟨0, 0, 600, 800⟩, ⟨0, 0, 600, 800⟩⟩,
   ⟨⟨0, 0, 600, 3000⟩, ⟨0, 0, 600, 3000⟩⟩,
   ⟨⟨0, 0, 600, 800⟩, ⟨0, 0, 600, 800⟩⟩]

def boundsExample : List ContentBounds :=
  [⟨10, 10, 590, 790, false⟩, ⟨10, 10, 590, 2990, false⟩, ⟨10, 10, 590, 790, false⟩]

/-- One 500×800 page with content box [10, 490] × [10, 790]: content width
480, planned width 780, surplus width 300. -/
def pagesSurplus : List Page := [⟨⟨0, 0, 500, 800⟩, ⟨0, 0, 500, 800⟩⟩]

def boundsSurplus : List ContentBounds := [⟨10, 10, 490, 790, false⟩]

/-- Tablet config with inch-scale padding 1, triggering the unit heuristic
against point-scale documents. -/
def tabInchPad : TabletConfig := ⟨1000, 1000, 1⟩

def cfgInchPad : Config := ⟨some tabInchPad, 0, Side.right⟩

def pagesInchPad : List Page := [⟨⟨0, 0, 600, 800⟩, ⟨0, 0, 600, 800⟩⟩]

def boundsInchPad : List ContentBounds := [⟨10, 10, 590, 790, false⟩]

/-- Sample bounds with non-empty content heights 3, 1, 2 and one empty
record, used to exercise the median computation. -/
def pageBoundsMedianSample : List ContentBounds :=
  [⟨0, 0, 5, 3, false⟩, ⟨0, 0, 5, 1, false⟩, ⟨0, 0, 0, 0, true⟩, ⟨0, 0, 5, 2, false⟩]

/-- The content's vertical center, as the Margin Compositor computes it
(worker.js line 681). -/
def contentCenterY (ob : ContentBounds) : ℚ := (ob.T + ob.B) / 2

/-- The content center's normalized vertical position within the original
page height (worker.js line 686): 0 = original bottom, 1 = original top. -/
def origRelPos (box : Box) (ob : ContentBounds) : ℚ :=
  (contentCenterY ob - box.B) / (box.T - box.B)

/-- The tentative new bottom edge before clamping (worker.js line 689). -/
def tentativeBottom (box : Box) (ob : ContentBounds) (h : ℚ) : ℚ :=
  contentCenterY ob - origRelPos box ob * h

/- ===================== Theorems ===================== -/

/- Helper lemmas about the pixel scan under an all-content render, and
about indexed access into the per-page processing map. -/

lemma rowHasContent_allTrue (isContent : ℕ → ℕ → Bool)
    (hall : ∀ x y, isContent x y = true) (bmWidth y : ℕ) (hw : 0 < bmWidth) :
    rowHasContent isContent bmWidth y = true := by
  unfold rowHasContent
  rw [List.any_eq_true]
  exact ⟨0, List.mem_range.2 hw, hall 0 y⟩

lemma findTopRow_allTrue (isContent : ℕ → ℕ → Bool)
    (hall : ∀ x y, isContent x y = true) (w h : ℕ) (hw : 0 < w) (hh : 0 < h) :
    findTopRow isContent w h = some 0 := by
  unfold findTopRow
  obtain ⟨n, rfl⟩ := Nat.exists_eq_succ_of_ne_zero hh.ne'
  rw [List.range_succ_eq_map, List.find?_cons_of_pos _ (rowHasContent_allTrue isContent hall w 0 hw)]

lemma findBottomRow_allTrue (isContent : ℕ → ℕ → Bool)
    (hall : ∀ x y, isContent x y = true) (w h minY : ℕ) (hw : 0 < w) (hmin : minY < h) :
    findBottomRow isContent w h minY = h - 1 := by
  unfold findBottomRow
  obtain ⟨n, hn⟩ : ∃ n, h - minY = n + 1 := ⟨h - minY - 1, by omega⟩
  rw [hn, List.range_succ_eq_map, List.map_cons,
    List.find?_cons_of_pos _ (rowHasContent_allTrue isContent hall w _ hw), Option.getD_some]
  omega

lemma scanRowLeft_allTrue (isContent : ℕ → ℕ → Bool)
    (hall : ∀ x y, isContent x y = true) (y minX : ℕ) :
    scanRowLeft isContent y minX = 0 := by
  unfold scanRowLeft
  cases minX with
  | zero => simp
  | succ n =>
    rw [List.range_succ_eq_map,
      @List.find?_cons_of_pos ℕ (fun x => isContent x y) 0 _ (hall 0 y)]

lemma scanRowRight_allTrue (isContent : ℕ → ℕ → Bool)
    (hall : ∀ x y, isContent x y = true) (w y : ℕ) (hw : 0 < w) (maxX : ℤ)
    (hmax : maxX ≤ (w : ℤ) - 1) :
    scanRowRight isContent w y maxX = (w : ℤ) - 1 := by
  unfold scanRowRight
  rcases eq_or_lt_of_le hmax with he | hlt
  · have h0 : ((w : ℤ) - (maxX + 1)).toNat = 0 := by omega
    rw [h0]
    simp only [List.range_zero, List.map_nil, List.find?_nil]
    exact he
  · obtain ⟨n, hn⟩ : ∃ n, ((w : ℤ) - (maxX + 1)).toNat = n + 1 :=
      ⟨((w : ℤ) - (maxX + 1)).toNat - 1, by omega⟩
    rw [hn, List.range_succ_eq_map, List.map_cons,
      @List.find?_cons_of_pos ℕ (fun x => isContent x y) (w - 1 - 0) _ (hall _ y)]
    simp only [Nat.sub_zero]
    omega

lemma foldl_scan_fixed (isContent : ℕ → ℕ → Bool)
    (hall : ∀ x y, isContent x y = true) (w : ℕ) (hw : 0 < w) (l : List ℕ) :
    l.foldl (fun (st : ℕ × ℤ) y => (scanRowLeft isContent y st.1, scanRowRight isContent w y st.2))
      (0, (w : ℤ) - 1) = (0, (w : ℤ) - 1) := by
  induction l with
  | nil => rfl
  | cons a l ih =>
    rw [List.foldl_cons]
    rw [show (scanRowLeft isContent a 0, scanRowRight isContent w a ((w : ℤ) - 1))
        = ((0 : ℕ), (w : ℤ) - 1) by
      rw [scanRowLeft_allTrue isContent hall, scanRowRight_allTrue isContent hall w a hw _ (le_refl _)]]
    exact ih

lemma scanColumns_allTrue (isContent : ℕ → ℕ → Bool)
    (hall : ∀ x y, isContent x y = true) (w minY maxY : ℕ) (hw : 0 < w) (hle : minY ≤ maxY) :
    scanColumns isContent w minY maxY = (0, (w : ℤ) - 1) := by
  unfold scanColumns
  obtain ⟨n, hn⟩ : ∃ n, maxY + 1 - minY = n + 1 := ⟨maxY - minY, by omega⟩
  rw [hn, List.range_succ_eq_map, List.map_cons, List.foldl_cons]
  rw [show (scanRowLeft isContent (0 + minY) w, scanRowRight isContent w (0 + minY) (-1))
      = ((0 : ℕ), (w : ℤ) - 1) by
    rw [scanRowLeft_allTrue isContent hall, scanRowRight_allTrue isContent hall w _ hw _ (by omega)]]
  exact foldl_scan_fixed isContent hall w hw _

lemma rangeMap_getD {α : Type} (n i : ℕ) (f : ℕ → α) (d : α) (hi : i < n) :
    ((List.range n).map f).getD i d = f i := by
  rw [List.getD_eq_getElem?_getD, List.getElem?_map, List.getElem?_range hi]
  rfl

lemma getD_set_ne {α : Type} (l : List α) (i j : ℕ) (a d : α) (hne : j ≠ i) :
    (l.set i a).getD j d = l.getD j d := by
  rw [List.getD_eq_getElem?_getD, List.getD_eq_getElem?_getD, List.getElem?_set_ne]
  omega

/-- C1: the specification says a page whose natural width/height is below
the target aspect (too tall) must come out at the target aspect, and gives
the example of content heights {780, 2980, 780} with target 1:1 and zero
padding, where page 2 should become approximately 2980 by 2980.  The code
corrects in the opposite direction (worker.js line 902 triggers on
width/height greater than the target and grows the height): the long page
keeps planned width 780 and is written as box ⟨10, 10, 790, 2990⟩, whose
aspect 780/2980 is far from 1 — matching neither the claim nor the
repository test that expects about 2980 by 2980. -/
theorem c1_too_tall_page_left_uncorrected :
    ((tabletProcess cfgSquare tabSquare pagesExample boundsExample).getD 1 defaultPage).mediaBox
      = ⟨10, 10, 790, 2990⟩ ∧
    ¬ ((790 - 10 : ℚ) / (2990 - 10) = tabSquare.width / tabSquare.height) := by
  norm_num [tabletProcess, typicalContentHeight, nonEmptyContentHeights, scaledEpsilon,
    basePageHeight, basePageWidth, planDims, applyMarginsRaw, computeNewBox, boxValid,
    isValidCoord, applyRightSide, emptyFallbackBounds, boundsExample, pagesExample,
    cfgSquare, tabSquare, List.insertionSort, List.orderedInsert, max_def, min_def, abs]

/-- C2 counterexample: with target 1×1000 (aspect 1/1000) and padding 100,
an all-empty document (typical height is the fallback 500) gives an empty
page the geometry (200, 200000) instead of the baseline (7/10, 700): the
claim that empty pages receive exactly the baseline geometry fails when
2·epsilon exceeds the base width, because the width max and the aspect
correction both fire. -/
theorem c2_empty_page_not_baseline_cex :
    typicalContentHeight [emptyFallbackBounds] = 500 ∧
    planDims (basePageHeight 500 100) (basePageWidth 500 100 (1 / 1000)) (1 / 1000) 100
        emptyFallbackBounds = (200, 200000) ∧
    (200, 200000) ≠ ((basePageWidth 500 100 (1 / 1000), basePageHeight 500 100) : ℚ × ℚ) := by
  norm_num [typicalContentHeight, nonEmptyContentHeights, planDims, basePageHeight,
    basePageWidth, emptyFallbackBounds, List.insertionSort, max_def, min_def, Prod.ext_iff]

/-- C2 (amended): the Layout Planner computes the per-page geometry exactly
by the spec formulas — baseline, per-page maxima, and the aspect step as
the code writes it — and an empty page (contentHeight = contentWidth = 0)
collapses to exactly the baseline geometry provided the typical height is
non-negative, the target dimensions are positive, and 2·epsilon does not
exceed the base width (always true for epsilon = 0). -/
theorem c2_plan_formula_amended (typical eps wT hT : ℚ) (bounds : ContentBounds) :
    planDims (basePageHeight typical eps) (basePageWidth typical eps (wT / hT)) (wT / hT) eps bounds
      = specTargetGeometry typical eps wT hT bounds ∧
    (bounds.isEmpty = true → 0 ≤ typical → 0 < wT → 0 < hT →
      2 * eps ≤ basePageWidth typical eps (wT / hT) →
      planDims (basePageHeight typical eps) (basePageWidth typical eps (wT / hT)) (wT / hT) eps bounds
        = (basePageWidth typical eps (wT / hT), basePageHeight typical eps)) := by
  constructor
  · have h2 : eps * 2 = 2 * eps := by ring
    simp only [planDims, specTargetGeometry, basePageHeight, basePageWidth, h2]
  · intro hempty htyp hw hh hbw
    have hbH : basePageHeight typical eps = typical + eps * 2 := rfl
    simp only [planDims, hempty, if_true]
    have h1 : max (basePageHeight typical eps) (0 + eps * 2) = basePageHeight typical eps := by
      apply max_eq_left
      rw [hbH]
      linarith
    have h2 : max (basePageWidth typical eps (wT / hT)) (0 + eps * 2)
        = basePageWidth typical eps (wT / hT) := by
      apply max_eq_left
      linarith
    rw [h1, h2]
    have hasp : ¬ (basePageWidth typical eps (wT / hT) / basePageHeight typical eps > wT / hT) := by
      rcases eq_or_ne (basePageHeight typical eps) 0 with hz | hz
      · rw [show basePageWidth typical eps (wT / hT) = basePageHeight typical eps * (wT / hT) from rfl,
          hz, zero_mul, zero_div]
        exact not_lt.2 (le_of_lt (div_pos hw hh))
      · rw [show basePageWidth typical eps (wT / hT) = basePageHeight typical eps * (wT / hT) from rfl,
          mul_div_cancel_left₀ _ hz]
        exact lt_irrefl _
    rw [if_neg hasp]

/-- C2 witness: at typical height 500, epsilon 0, target 1000×1000, an
empty page receives exactly the baseline geometry. -/
theorem c2_plan_formula_witness :
    planDims (basePageHeight 500 0) (basePageWidth 500 0 (1000 / 1000)) (1000 / 1000) 0
        emptyFallbackBounds
      = (basePageWidth 500 0 (1000 / 1000), basePageHeight 500 0) :=
  (c2_plan_formula_amended 500 0 1000 1000 emptyFallbackBounds).2 rfl (by norm_num)
    (by norm_num) (by norm_num) (by norm_num [basePageWidth, basePageHeight])

/-- C3: typicalContentHeight equals the middle element (index ⌊n/2⌋, the
upper middle for even n) of any ascending-sorted permutation of the content
heights of exactly the non-empty page records, and equals the fixed
fallback 500 when there are none. -/
theorem c3_typical_is_sorted_middle (pageBounds : List ContentBounds) (l : List ℚ)
    (hperm : l.Perm (nonEmptyContentHeights pageBounds))
    (hsort : l.Sorted (· ≤ ·)) :
    typicalContentHeight pageBounds = if 0 < l.length then l.getD (l.length / 2) 0 else 500 := by
  have heq : List.insertionSort (· ≤ ·) (nonEmptyContentHeights pageBounds) = l :=
    List.eq_of_perm_of_sorted ((List.perm_insertionSort _ _).trans hperm.symm)
      (List.sorted_insertionSort _ _) hsort
  unfold typicalContentHeight
  rw [heq]

/-- C3 witness: heights {3, 1, 2} with one empty record give the median 2. -/
theorem c3_typical_witness :
    typicalContentHeight pageBoundsMedianSample = 2 := by
  have hs : nonEmptyContentHeights pageBoundsMedianSample = [3, 1, 2] := by
    norm_num [nonEmptyContentHeights, pageBoundsMedianSample]
  have hperm : ([1, 2, 3] : List ℚ).Perm (nonEmptyContentHeights pageBoundsMedianSample) := by
    rw [hs]
    simpa using List.perm_append_singleton (3 : ℚ) [1, 2]
  have hsort : ([1, 2, 3] : List ℚ).Sorted (· ≤ ·) := by
    norm_num [List.Sorted]
  have h := c3_typical_is_sorted_middle pageBoundsMedianSample [1, 2, 3] hperm hsort
  norm_num at h
  exact h

/-- C4: in tablet mode with planned dimensions supplied, the composed
vertical extent always spans exactly the planned height (clamping shifts
the box, never resizes it); when no clamp fires, the content center keeps
its normalized position from the original page; when the tentative top
would sit within epsilon of the content top, the box is shifted so the new
top clears the content by exactly epsilon, and symmetrically for the
bottom. -/
theorem c4_vertical_anchoring (tab : TabletConfig) (ms : ℚ) (side : Side) (i : ℕ)
    (box : Box) (ob : ContentBounds) (w h : ℚ)
    (hOrig : box.B < box.T) (hh : h ≠ 0) :
    (computeNewBox ⟨some tab, ms, side⟩ i box (some ob) (some (w, h))).T
      - (computeNewBox ⟨some tab, ms, side⟩ i box (some ob) (some (w, h))).B = h ∧
    (¬ tentativeBottom box ob h + h < ob.T + tab.epsilon →
     ¬ tentativeBottom box ob h > ob.B - tab.epsilon →
      (contentCenterY ob - (computeNewBox ⟨some tab, ms, side⟩ i box (some ob) (some (w, h))).B) / h
        = origRelPos box ob) ∧
    (tentativeBottom box ob h + h < ob.T + tab.epsilon →
      (computeNewBox ⟨some tab, ms, side⟩ i box (some ob) (some (w, h))).T = ob.T + tab.epsilon ∧
      (computeNewBox ⟨some tab, ms, side⟩ i box (some ob) (some (w, h))).B = ob.T + tab.epsilon - h) ∧
    (¬ tentativeBottom box ob h + h < ob.T + tab.epsilon →
     tentativeBottom box ob h > ob.B - tab.epsilon →
      (computeNewBox ⟨some tab, ms, side⟩ i box (some ob) (some (w, h))).B = ob.B - tab.epsilon ∧
      (computeNewBox ⟨some tab, ms, side⟩ i box (some ob) (some (w, h))).T = ob.B - tab.epsilon + h) := by
  have hsafe : ((if box.T - box.B > 0 then box.T - box.B else 1) : ℚ) = box.T - box.B :=
    if_pos (by linarith)
  simp only [computeNewBox, hsafe, contentCenterY, origRelPos, tentativeBottom]
  split_ifs <;>
    refine ⟨by ring, fun hA hB => ?_, fun hC => ?_, fun hD hE => ?_⟩ <;>
    first
      | (exfalso; linarith)
      | (constructor <;> ring)
      | (rw [show ((ob.T + ob.B) / 2
              - ((ob.T + ob.B) / 2 - ((ob.T + ob.B) / 2 - box.B) / (box.T - box.B) * h))
            = (((ob.T + ob.B) / 2 - box.B) / (box.T - box.B)) * h from by ring]
         exact mul_div_cancel_right₀ _ hh)

/-- C4 witness: a page ⟨0,0,600,800⟩ with content box [10,590]×[100,700]
composed to planned height 780 spans exactly 780 vertically. -/
theorem c4_vertical_anchoring_witness :
    (computeNewBox ⟨some tabSquare, 0, Side.right⟩ 0 ⟨0, 0, 600, 800⟩
        (some ⟨10, 100, 590, 700, false⟩) (some (780, 780))).T
      - (computeNewBox ⟨some tabSquare, 0, Side.right⟩ 0 ⟨0, 0, 600, 800⟩
        (some ⟨10, 100, 590, 700, false⟩) (some (780, 780))).B = 780 :=
  (c4_vertical_anchoring tabSquare 0 Side.right 0 ⟨0, 0, 600, 800⟩ ⟨10, 100, 590, 700, false⟩
    780 780 (by norm_num) (by norm_num)).1

/-- C5: with zero configured padding and 300 units of surplus width
(content width 480 against planned width 780), the composed page's left
edge coincides exactly with the detected content's left edge: the code
applies no safety inset at all, contradicting the claim — and the
repository test (worker.spec.js, Zero Vertical Padding) which expects a
15-unit bezel inset, i.e. a new left edge at −5. -/
theorem c5_zero_padding_no_bezel_inset :
    ((tabletProcess cfgSquare tabSquare pagesSurplus boundsSurplus).getD 0 defaultPage).mediaBox
      = ⟨10, 10, 790, 790⟩ ∧
    ((tabletProcess cfgSquare tabSquare pagesSurplus boundsSurplus).getD 0 defaultPage).mediaBox.L
      = (boundsSurplus.getD 0 emptyFallbackBounds).L := by
  norm_num [tabletProcess, typicalContentHeight, nonEmptyContentHeights, scaledEpsilon,
    basePageHeight, basePageWidth, planDims, applyMarginsRaw, computeNewBox, boxValid,
    isValidCoord, applyRightSide, emptyFallbackBounds, boundsSurplus, pagesSurplus,
    cfgSquare, tabSquare, List.insertionSort, List.orderedInsert, max_def, min_def, abs]

/-- C6 counterexample: with typical height 780 (points scale) and padding
1 (inch scale), the heuristic scales the padding to 72 for the dimension
formulas, but the composition step reads the unscaled config value: the
real pipeline yields box ⟨9, −62, 933, 862⟩ (left inset 1), while the
claimed everywhere-scaled pipeline would yield ⟨−62, −62, 862, 862⟩ (left
inset 72). -/
theorem c6_unscaled_epsilon_in_compose_cex :
    ((tabletProcess cfgInchPad tabInchPad pagesInchPad boundsInchPad).getD 0 defaultPage).mediaBox
      = ⟨9, -62, 933, 862⟩ ∧
    ((tabletProcessClaimC6 cfgInchPad tabInchPad pagesInchPad boundsInchPad).getD 0
        defaultPage).mediaBox
      = ⟨-62, -62, 862, 862⟩ ∧
    (⟨9, -62, 933, 862⟩ : Box) ≠ ⟨-62, -62, 862, 862⟩ := by
  refine ⟨?_, ?_, ?_⟩
  · norm_num [tabletProcess, typicalContentHeight, nonEmptyContentHeights, scaledEpsilon,
      basePageHeight, basePageWidth, planDims, applyMarginsRaw, computeNewBox, boxValid,
      isValidCoord, applyRightSide, emptyFallbackBounds, boundsInchPad, pagesInchPad,
      cfgInchPad, tabInchPad, List.insertionSort, List.orderedInsert, max_def, min_def, abs]
  · norm_num [tabletProcessClaimC6, typicalContentHeight, nonEmptyContentHeights, scaledEpsilon,
      basePageHeight, basePageWidth, planDims, applyMarginsRaw, computeNewBox, boxValid,
      isValidCoord, applyRightSide, emptyFallbackBounds, boundsInchPad, pagesInchPad,
      cfgInchPad, tabInchPad, List.insertionSort, List.orderedInsert, max_def, min_def, abs]
  · intro hEq
    have := congrArg Box.L hEq
    norm_num at this

/-- C6 (amended): the ×72-scaled padding is used only in the baseline and
per-page dimension formulas, while margin composition reads the original
configured padding: the content-adjacent edge inset equals the unscaled
tab.epsilon on either side, and every page of the second pass is composed
with the original config but with dimensions planned from the scaled
padding. -/
theorem c6_epsilon_split_amended :
    (∀ (tab : TabletConfig) (ms : ℚ) (i : ℕ) (box : Box) (ob : ContentBounds) (w h : ℚ),
      (computeNewBox ⟨some tab, ms, Side.right⟩ i box (some ob) (some (w, h))).L
        = ob.L - tab.epsilon) ∧
    (∀ (tab : TabletConfig) (ms : ℚ) (i : ℕ) (box : Box) (ob : ContentBounds) (w h : ℚ),
      (computeNewBox ⟨some tab, ms, Side.left⟩ i box (some ob) (some (w, h))).R
        = ob.R + tab.epsilon) ∧
    (∀ (cfg : Config) (tab : TabletConfig) (pages : List Page)
        (bounds : List ContentBounds) (i : ℕ),
      i < pages.length →
      (tabletProcess cfg tab pages bounds).getD i defaultPage
        = applyMarginsRaw cfg i (pages.getD i defaultPage)
            (some (bounds.getD i emptyFallbackBounds))
            (some (planDims
              (basePageHeight (typicalContentHeight bounds)
                (scaledEpsilon (typicalContentHeight bounds) tab.epsilon))
              (basePageWidth (typicalContentHeight bounds)
                (scaledEpsilon (typicalContentHeight bounds) tab.epsilon) (tab.width / tab.height))
              (tab.width / tab.height)
              (scaledEpsilon (typicalContentHeight bounds) tab.epsilon)
              (bounds.getD i emptyFallbackBounds)))) := by
  refine ⟨?_, ?_, ?_⟩
  · intro tab ms i box ob w h
    simp [computeNewBox, applyRightSide]
  · intro tab ms i box ob w h
    simp [computeNewBox, applyRightSide]
  · intro cfg tab pages bounds i hi
    unfold tabletProcess
    exact rangeMap_getD _ _ _ _ hi

/-- C6 witness: the single-page inch-padding document is composed with the
original config and dimensions planned from the scaled padding. -/
theorem c6_epsilon_split_witness :
    (tabletProcess cfgInchPad tabInchPad pagesInchPad boundsInchPad).getD 0 defaultPage
      = applyMarginsRaw cfgInchPad 0 (pagesInchPad.getD 0 defaultPage)
          (some (boundsInchPad.getD 0 emptyFallbackBounds))
          (some (planDims
            (basePageHeight (typicalContentHeight boundsInchPad)
              (scaledEpsilon (typicalContentHeight boundsInchPad) tabInchPad.epsilon))
            (basePageWidth (typicalContentHeight boundsInchPad)
              (scaledEpsilon (typicalContentHeight boundsInchPad) tabInchPad.epsilon)
              (tabInchPad.width / tabInchPad.height))
            (tabInchPad.width / tabInchPad.height)
            (scaledEpsilon (typicalContentHeight boundsInchPad) tabInchPad.epsilon)
            (boundsInchPad.getD 0 emptyFallbackBounds))) :=
  c6_epsilon_split_amended.2.2 cfgInchPad tabInchPad pagesInchPad boundsInchPad 0
    (by norm_num [pagesInchPad])

/-- C7: if any of the four computed coordinates has magnitude at least 1e7
(non-finite values cannot arise in the rational model), neither the media
box nor the crop box is written and the page keeps its original state;
otherwise the computed box is written to both.  The recovery is local:
the output for page j does not depend on any other page's data. -/
theorem c7_invalid_box_recovery (cfg : Config) (i : ℕ) (page : Page)
    (ob : Option ContentBounds) (ud : Option (ℚ × ℚ)) :
    (boxValid (computeNewBox cfg i page.mediaBox ob ud) = false →
      applyMarginsRaw cfg i page ob ud = page) ∧
    (boxValid (computeNewBox cfg i page.mediaBox ob ud) = true →
      applyMarginsRaw cfg i page ob ud =
        ⟨computeNewBox cfg i page.mediaBox ob ud, computeNewBox cfg i page.mediaBox ob ud⟩) ∧
    (∀ (tab : TabletConfig) (pages : List Page) (bounds : List ContentBounds)
        (j : ℕ) (pAlt : Page),
      j < pages.length → j ≠ i →
      (tabletProcess cfg tab (pages.set i pAlt) bounds).getD j defaultPage =
        (tabletProcess cfg tab pages bounds).getD j defaultPage) := by
  refine ⟨?_, ?_, ?_⟩
  · intro hv
    simp [applyMarginsRaw, hv]
  · intro hv
    simp [applyMarginsRaw, hv]
  · intro tab pages bounds j pAlt hj hne
    unfold tabletProcess
    rw [List.length_set, rangeMap_getD _ _ _ _ hj, rangeMap_getD _ _ _ _ hj,
      getD_set_ne _ _ _ _ _ hne]

/-- C7 witness: a fixed margin of 2·10⁷ pushes the right edge past the 1e7
bound, so the page is left unmodified. -/
theorem c7_invalid_box_recovery_witness :
    applyMarginsRaw ⟨none, 20000000, Side.right⟩ 0 ⟨⟨0, 0, 100, 100⟩, ⟨0, 0, 100, 100⟩⟩ none none
      = ⟨⟨0, 0, 100, 100⟩, ⟨0, 0, 100, 100⟩⟩ :=
  (c7_invalid_box_recovery ⟨none, 20000000, Side.right⟩ 0 ⟨⟨0, 0, 100, 100⟩, ⟨0, 0, 100, 100⟩⟩
    none none).1
    (by norm_num [boxValid, isValidCoord, computeNewBox, applyRightSide, abs])

/-- C8 (amended): a degenerate page box — zero width (left = right) or zero
height (bottom = top) — makes the detector return the original box with
isEmpty = true before any rendering happens, for every render and every
bitmap budget; the detector is a total function, so it never fails on such
input.  Inverted boxes with positive extent are instead normalized and
scanned normally (see the counterexample). -/
theorem c8_degenerate_box_empty (render : ℕ → ℕ → ℕ × ℕ × ℕ)
    (origL origB origR origT maxBitmapDim : ℚ)
    (h : origL = origR ∨ origB = origT) :
    getTightContentBounds render origL origB origR origT maxBitmapDim
      = ⟨origL, origB, origR, origT, true⟩ := by
  unfold getTightContentBounds
  rcases h with h | h <;> subst h <;> simp

/-- C8 witness: a zero-width box (left = right = 5) yields isEmpty = true. -/
theorem c8_degenerate_witness :
    getTightContentBounds blackRender 5 2 5 9 1000 = ⟨5, 2, 5, 9, true⟩ :=
  c8_degenerate_box_empty blackRender 5 2 5 9 1000 (Or.inl rfl)

/-- C8 counterexample: an inverted page box (right 0 < left 1000) is
normalized, rendered and scanned like any other page; with an all-black
render the detector returns isEmpty = false, contradicting the claim that
inverted boxes always yield isEmpty = true regardless of what the page
renders. -/
theorem c8_inverted_box_not_empty_cex :
    (0 : ℚ) < 1000 ∧
    getTightContentBounds blackRender 1000 0 0 1000 1000 = ⟨0, 0, 1000, 1000, false⟩ := by
  constructor
  · norm_num
  · have hall : ∀ x y, (fun x y => isContentPx (blackRender x y)) x y = true := fun _ _ => rfl
    simp only [getTightContentBounds]
    norm_num [min_def, max_def]
    rw [show (1000 : ℤ).toNat = 1000 from rfl]
    rw [findTopRow_allTrue _ hall 1000 1000 (by norm_num) (by norm_num)]
    simp only [Option.getD_some]
    rw [findBottomRow_allTrue _ hall 1000 1000 0 (by norm_num) (by norm_num)]
    rw [show (1000 - 1 : ℕ) = 999 from rfl]
    rw [scanColumns_allTrue _ hall 1000 0 999 (by norm_num) (by norm_num)]
    norm_num

/-- C9: processing rewrites per-page boxes only and never adds or removes
pages: in both tablet and fixed-margin mode the output document has exactly
as many pages as the input document. -/
theorem c9_page_count_preserved (cfg : Config) (ips : List InputPage) :
    (process cfg ips).length = ips.length := by
  unfold process processDoc tabletProcess
  cases (sanitizeConfig cfg).tablet <;> simp

/-- C10: whenever a page's geometry is written — in tablet mode or in
fixed-margin mode — the crop box is set to exactly the same rectangle as
the media box, so a rewritten page's two boxes never diverge; the only
alternative is that the page is left fully untouched. -/
theorem c10_crop_matches_media (cfg : Config) (i : ℕ) (page : Page)
    (ob : Option ContentBounds) (ud : Option (ℚ × ℚ)) :
    applyMarginsRaw cfg i page ob ud = page ∨
      (applyMarginsRaw cfg i page ob ud).cropBox = (applyMarginsRaw cfg i page ob ud).mediaBox := by
  unfold applyMarginsRaw
  by_cases h : boxValid (computeNewBox cfg i page.mediaBox ob ud) <;> simp [h]
